import Mathlib

/-!
Verification of the todolist-python repository core: the in-memory repositories
(`src/todolist/repository.py`, `src/app/repositories/project_repository.py`),
the service layer (`src/todolist/service.py`), the SQLAlchemy repository
(`src/app/repositories/sqlalchemy_repository.py`), and the overdue auto-close
sweep. Python datetimes are modelled as integers; Python exceptions are
modelled by the `Todo.Err` error type carried in `Except` results. Where the
Python code reads an attribute that does not exist on the object (a runtime
`AttributeError`) or calls a constructor with a keyword the class does not
accept (a runtime `TypeError`), the embedding returns the corresponding error
value; the affected lines are cited at each definition.
-/

deriving instance DecidableEq for Except

namespace Todo

/-- Errors of the application, mirroring `todolist/exceptions.py` (the
application-defined exception classes) together with the two Python runtime
errors the sources can raise: `AttributeError` (reading a missing attribute,
carrying the attribute name) and `TypeError` (a constructor call with a
keyword argument the class does not accept, or with a required argument
missing; carrying the offending argument name). -/
inductive Err where
  | entityDoesNotExist (entity : String) (id : Int)
  | validationError (msg : String)
  | duplicateProjectName (nm : String)
  | projectLimitExceeded
  | taskLimitExceeded
  | attributeError (attr : String)
  | typeError (arg : String)
deriving DecidableEq, Repr

/-- Calendar date, the result of parsing `YYYY-MM-DD` deadline text
(`datetime.strptime(deadline_str, "%Y-%m-%d")` in `todolist/service.py`). -/
structure Date where
  year : Nat
  month : Nat
  day : Nat
deriving DecidableEq, Repr

/-- Gregorian leap-year rule used by Python `datetime` for day validation. -/
def isLeapYear (y : Nat) : Bool :=
  y % 4 == 0 && (y % 100 != 0 || y % 400 == 0)

/-- Number of days in a month, as Python `datetime` validates them. -/
def daysInMonth (y m : Nat) : Nat :=
  if m == 2 then (if isLeapYear y then 29 else 28)
  else if m == 4 || m == 6 || m == 9 || m == 11 then 30
  else 31

/-- Splits a character list at every dash, like Python `str.split("-")`:
the empty string yields one empty component, and leading, trailing or
adjacent dashes yield empty components. -/
def splitOnDash : List Char → List (List Char)
  | [] => [[]]
  | c :: cs =>
    let rest := splitOnDash cs
    if c = '-' then [] :: rest
    else
      match rest with
      | r :: rs => (c :: r) :: rs
      | [] => [[c]]

/-- Numeric value of an all-digit character list (most significant first). -/
def digitsToNat (cs : List Char) : Nat :=
  cs.foldl (fun acc c => acc * 10 + (c.toNat - 48)) 0

/-- Embedding of CPython `datetime.strptime(s, "%Y-%m-%d")`: the format
compiles to the pattern `\d\d\d\d` for `%Y`, `1[0-2]|0[1-9]|[1-9]` for `%m`
and `3[01]|[12]\d|0[1-9]|[1-9]` for `%d`, joined by literal dashes and
required to consume the whole string, after which `datetime` checks the day
against the month length and the year against `MINYEAR = 1`. Digits are
modelled as ASCII. Because no component may contain a dash, matching is
equivalent to splitting the string at its dashes: exactly three all-digit
components, the year of exactly four digits, month and day of one or two
digits, month in 1..12, day in 1..31 and within the month, year nonzero. -/
def strptimeYmd (s : String) : Option Date :=
  match splitOnDash s.data with
  | [ys, ms, ds] =>
    if ys.length == 4 && ys.all Char.isDigit
        && 1 ≤ ms.length && ms.length ≤ 2 && ms.all Char.isDigit
        && 1 ≤ ds.length && ds.length ≤ 2 && ds.all Char.isDigit then
      let y := digitsToNat ys
      let m := digitsToNat ms
      let d := digitsToNat ds
      if 1 ≤ y && 1 ≤ m && m ≤ 12 && 1 ≤ d && d ≤ 31 && d ≤ daysInMonth y m then
        some ⟨y, m, d⟩
      else none
    else none
  | _ => none

/-- Replaces the first element satisfying `p` by `f` of it, leaving the rest
unchanged: the effect of mutating the object found by a linear search, or of
assigning to a dict key, in a list model of the store. -/
def updateFirst {α : Type} (p : α → Bool) (f : α → α) : List α → List α
  | [] => []
  | x :: xs => if p x then f x :: xs else x :: updateFirst p f xs

namespace TL

/-- Task dataclass of `todolist/models.py`: fields `id`, `title`,
`description`, `status`, `deadline` (optional, default None). The `status`
field has no default value, so the dataclass constructor requires it. -/
structure Task where
  id : Int
  title : String
  description : String
  status : String
  deadline : Option Date := none
deriving DecidableEq, Repr

/-- Project dataclass of `todolist/models.py`: fields `id`, `title`,
`description`, `tasks`. The dataclass has no `name` and no `creation_date`
field; `name` can nevertheless appear at runtime because
`InMemoryProjectRepository.update_project` assigns `project.name = new_name`,
which on a plain Python object creates the attribute. The embedding therefore
carries `name` as an optional dynamic attribute, `none` meaning the attribute
is absent (reading it raises `AttributeError`). No code path ever assigns
`creation_date`, so it needs no field: reading it always raises. -/
structure Project where
  id : Int
  title : String
  description : String
  tasks : List Task := []
  name : Option String := none
deriving DecidableEq, Repr

/-- State of `todolist/repository.py` `InMemoryProjectRepository`: the
`_projects` dict (id-keyed, insertion-ordered, modelled as a list whose
entries have the keys as their `id`) and the two counters. -/
structure State where
  projects : List Project := []
  next_project_id : Int := 1
  next_task_id : Int := 1
deriving DecidableEq, Repr

/-- Membership of a project id in the `_projects` dict (`id in self._projects`). -/
def State.hasProject (s : State) (id : Int) : Bool :=
  s.projects.any (fun p => p.id == id)

/-- Embedding of `InMemoryProjectRepository.create_project`
(`todolist/repository.py`). The source builds
`Project(id=project_id, name=name, description=description)`, but the
`Project` dataclass of `todolist/models.py` has no `name` field, so the
constructor call raises `TypeError: unexpected keyword argument` before any
state is mutated. -/
def create_project (s : State) (name description : String) :
    Except Err (Project × State) :=
  let _ := (s.next_project_id, name, description)
  .error (.typeError "name")

/-- Embedding of `InMemoryProjectRepository.list_projects`
(`todolist/repository.py`): `sorted(all_projects, key=lambda p: p.creation_date)`.
`sorted` applies the key to every element, and no `todolist` Project ever has
a `creation_date` attribute, so any nonempty store raises `AttributeError`;
the empty store sorts to the empty list without invoking the key. -/
def list_projects (s : State) : Except Err (List Project) :=
  if s.projects.isEmpty then .ok [] else .error (.attributeError "creation_date")

/-- Embedding of `InMemoryProjectRepository.find_project_by_id`
(`todolist/repository.py`): membership test on the dict, then a deep copy of
the stored value (value semantics in the embedding). -/
def find_project_by_id (s : State) (id : Int) : Except Err Project :=
  match s.projects.find? (fun p => p.id == id) with
  | some p => .ok p
  | none => .error (.entityDoesNotExist "Project" id)

/-- Embedding of `InMemoryProjectRepository.find_project_by_name`
(`todolist/repository.py`): iterates the stored projects in order reading
`project.name`. If the visited project lacks the dynamic `name` attribute the
read raises `AttributeError`; otherwise a match returns a copy and exhaustion
returns None. -/
def find_project_by_name_from (name : String) : List Project → Except Err (Option Project)
  | [] => .ok none
  | p :: rest =>
    match p.name with
    | none => .error (.attributeError "name")
    | some n => if n == name then .ok (some p) else find_project_by_name_from name rest

/-- Entry point of the `find_project_by_name` loop over the stored projects. -/
def find_project_by_name (s : State) (name : String) : Except Err (Option Project) :=
  find_project_by_name_from name s.projects

/-- Embedding of `InMemoryProjectRepository.update_project`
(`todolist/repository.py`): fetches a copy via `find_project_by_id`, assigns
`project.name = new_name` (creating the dynamic attribute) and
`project.description = new_description`, stores the copy back at the dict key
and returns a copy of it. -/
def update_project (s : State) (id : Int) (new_name new_description : String) :
    Except Err (Project × State) :=
  match find_project_by_id s id with
  | .error e => .error e
  | .ok p =>
    let p' : Project := { p with name := some new_name, description := new_description }
    .ok (p', { s with projects := updateFirst (fun q => q.id == id) (fun _ => p') s.projects })

/-- Embedding of `InMemoryProjectRepository.delete_project`
(`todolist/repository.py`): existence check via `find_project_by_id`, then
`del self._projects[id]`. -/
def delete_project (s : State) (id : Int) : Except Err State :=
  match find_project_by_id s id with
  | .error e => .error e
  | .ok _ => .ok { s with projects := s.projects.filter (fun p => p.id != id) }

/-- Embedding of `InMemoryProjectRepository.create_task`
(`todolist/repository.py`): after the existence check the source builds
`Task(id=self._next_task_id, title=title, description=description, deadline=deadline)`,
but the `Task` dataclass of `todolist/models.py` has no default for its
`status` field, so the constructor call raises
`TypeError: missing required argument` before any state is mutated. -/
def create_task (s : State) (project_id : Int) (title description : String)
    (deadline : Option Date) : Except Err (Task × State) :=
  match find_project_by_id s project_id with
  | .error e => .error e
  | .ok _ =>
    let _ := (s.next_task_id, title, description, deadline)
    .error (.typeError "status")

/-- Embedding of `ProjectService._parse_deadline` (`todolist/service.py`):
None parses to no deadline; any string is given to
`datetime.strptime(s, "%Y-%m-%d")`, whose failure (including on the empty
string) is turned into a `ValidationError`. -/
def parse_deadline (deadline_str : Option String) : Except Err (Option Date) :=
  match deadline_str with
  | none => .ok none
  | some str =>
    match strptimeYmd str with
    | some d => .ok (some d)
    | none => .error (.validationError "Invalid deadline format. Use YYYY-MM-DD")

/-- Embedding of `ProjectService.create_project` (`todolist/service.py`),
parameterized by the configured `max_projects`. Besides the result and the
resulting repository state it returns the list of repository operations the
call invoked, in order, so that fail-fast behaviour (no repository call before
validation) is a provable statement. The source order is: name length check,
description length check, `list_projects` for the limit check,
`find_project_by_name` for the duplicate check, `create_project`. -/
def service_create_project (max_projects : Int) (s : State) (name description : String) :
    Except Err Project × State × List String :=
  if name.length > 30 then
    (.error (.validationError "Project name must be 30 characters or less."), s, [])
  else if description.length > 150 then
    (.error (.validationError "Project description must be 150 characters or less."), s, [])
  else
    match list_projects s with
    | .error e => (.error e, s, ["list_projects"])
    | .ok ps =>
      if (ps.length : Int) ≥ max_projects then
        (.error .projectLimitExceeded, s, ["list_projects"])
      else
        match find_project_by_name s name with
        | .error e => (.error e, s, ["list_projects", "find_project_by_name"])
        | .ok (some _) =>
          (.error (.duplicateProjectName name), s, ["list_projects", "find_project_by_name"])
        | .ok none =>
          match create_project s name description with
          | .error e => (.error e, s, ["list_projects", "find_project_by_name", "create_project"])
          | .ok (p, s') => (.ok p, s', ["list_projects", "find_project_by_name", "create_project"])

/-- Embedding of `ProjectService.add_task_to_project` (`todolist/service.py`),
parameterized by the configured `max_tasks`. Source order: fetch the project
(propagating absence), task-limit check, title length check, description
length check, deadline parsing, repository `create_task`. -/
def service_add_task (max_tasks : Int) (s : State) (project_id : Int)
    (title description : String) (deadline_str : Option String) :
    Except Err Task × State :=
  match find_project_by_id s project_id with
  | .error e => (.error e, s)
  | .ok project =>
    if (project.tasks.length : Int) ≥ max_tasks then
      (.error .taskLimitExceeded, s)
    else if title.length > 30 then
      (.error (.validationError "Task title must be 30 characters or less."), s)
    else if description.length > 150 then
      (.error (.validationError "Task description must be 150 characters or less."), s)
    else
      match parse_deadline deadline_str with
      | .error e => (.error e, s)
      | .ok deadline =>
        match create_task s project_id title description deadline with
        | .error e => (.error e, s)
        | .ok (t, s') => (.ok t, s')

/-- Embedding of `ProjectService.edit_project` (`todolist/service.py`).
Source order: existence check via `find_project_by_id`, name length check,
description length check, duplicate check via `find_project_by_name` (a hit
with a different id fails), then repository `update_project`. -/
def service_edit_project (s : State) (project_id : Int)
    (new_name new_description : String) : Except Err Project × State :=
  match find_project_by_id s project_id with
  | .error e => (.error e, s)
  | .ok _ =>
    if new_name.length > 30 then
      (.error (.validationError "Project name must be 30 characters or less."), s)
    else if new_description.length > 150 then
      (.error (.validationError "Project description must be 150 characters or less."), s)
    else
      match find_project_by_name s new_name with
      | .error e => (.error e, s)
      | .ok (some existing) =>
        if existing.id != project_id then
          (.error (.duplicateProjectName new_name), s)
        else
          match update_project s project_id new_name new_description with
          | .error e => (.error e, s)
          | .ok (p, s') => (.ok p, s')
      | .ok none =>
        match update_project s project_id new_name new_description with
        | .error e => (.error e, s)
        | .ok (p, s') => (.ok p, s')

end TL

namespace App

/-- Task model of `src/app/models/task.py` (mapped columns `id`, `project_id`,
`title`, `description`, `status`, `deadline`, `created_at`, `closed_at`).
Timestamps are modelled as integers. `status` is declared a non-nullable
string with default `todo`; it is modelled as the stored string.
`project_id` and `created_at` are optional: the in-memory repository never
passes a `project_id` and never flushes, so on its objects both stay unset
(None). -/
structure Task where
  id : Int
  project_id : Option Int := none
  title : String
  description : String
  status : String := "todo"
  deadline : Option Int := none
  created_at : Option Int := none
  closed_at : Option Int := none
deriving DecidableEq, Repr

/-- Project model of `src/app/models/project.py` (mapped columns `id`, `name`,
`description`, `created_at`, relationship `tasks`). There is no mapped or
plain attribute called `creation_date`. The extra `next_task_id` component
models the dynamic `_next_task_id` attribute that
`InMemoryProjectRepository.create_task` reads and increments: no code ever
initializes it, so it is `none` (reading it raises `AttributeError`) unless a
successful `create_task` has set it. -/
structure Project where
  id : Int
  name : String
  description : String
  created_at : Option Int := none
  tasks : List Task := []
  next_task_id : Option Int := none
deriving DecidableEq, Repr

/-- State of `src/app/repositories/project_repository.py`
`InMemoryProjectRepository`: the `_projects` dict (id-keyed,
insertion-ordered, modelled as a list whose entries carry the keys as their
`id`) and the project-id counter. -/
structure State where
  projects : List Project := []
  next_project_id : Int := 1
deriving DecidableEq, Repr

/-- Embedding of `InMemoryProjectRepository._get_project_or_raise`:
`self._projects.get(id)` followed by a truthiness test. -/
def getProject? (s : State) (id : Int) : Option Project :=
  s.projects.find? (fun p => p.id == id)

/-- Embedding of `InMemoryProjectRepository._find_task_or_raise`: linear scan
of `project.tasks` by task id. -/
def findTask? (p : Project) (task_id : Int) : Option Task :=
  p.tasks.find? (fun t => t.id == task_id)

/-- Embedding of `InMemoryProjectRepository.create_project`
(`src/app/repositories/project_repository.py`): builds
`Project(id=project_id, name=name, description=description)` (the SQLAlchemy
declarative constructor accepts mapped-column keywords), stores it at the new
key, increments the counter and returns a deep copy. `created_at` has only a
server-side default, so it stays unset on the in-memory object. -/
def create_project (s : State) (name description : String) : Project × State :=
  let project : Project := { id := s.next_project_id, name := name, description := description }
  (project,
   { projects := s.projects ++ [project], next_project_id := s.next_project_id + 1 })

/-- Embedding of `InMemoryProjectRepository.list_projects`
(`src/app/repositories/project_repository.py`):
`sorted(all_projects, key=lambda p: p.creation_date)`. `sorted` applies the
key to every element, and the model's timestamp attribute is `created_at`,
not `creation_date`, so any nonempty store raises `AttributeError`; the empty
store sorts to the empty list without invoking the key. -/
def list_projects (s : State) : Except Err (List Project) :=
  if s.projects.isEmpty then .ok [] else .error (.attributeError "creation_date")

/-- Embedding of `InMemoryProjectRepository.find_project_by_id`: the lookup of
`_get_project_or_raise` plus a deep copy (value semantics in the embedding). -/
def find_project_by_id (s : State) (id : Int) : Except Err Project :=
  match getProject? s id with
  | some p => .ok p
  | none => .error (.entityDoesNotExist "Project" id)

/-- Embedding of `InMemoryProjectRepository.find_project_by_name`: linear scan
over the stored projects by `name`, returning a copy or None. -/
def find_project_by_name (s : State) (name : String) : Option Project :=
  s.projects.find? (fun p => p.name == name)

/-- Embedding of `InMemoryProjectRepository.update_project`: fetch or raise,
mutate `name` and `description` of the stored object, return a copy. -/
def update_project (s : State) (id : Int) (new_name new_description : String) :
    Except Err (Project × State) :=
  match getProject? s id with
  | none => .error (.entityDoesNotExist "Project" id)
  | some p =>
    let p' : Project := { p with name := new_name, description := new_description }
    .ok (p', { s with projects := updateFirst (fun q => q.id == id) (fun _ => p') s.projects })

/-- Embedding of `InMemoryProjectRepository.delete_project`: existence check
via `_get_project_or_raise`, then `del self._projects[id]`. -/
def delete_project (s : State) (id : Int) : Except Err State :=
  match getProject? s id with
  | none => .error (.entityDoesNotExist "Project" id)
  | some _ => .ok { s with projects := s.projects.filter (fun p => p.id != id) }

/-- Embedding of `InMemoryProjectRepository.create_task`
(`src/app/repositories/project_repository.py`): after the project lookup the
source reads `project._next_task_id` to build the Task. That attribute is
never initialized anywhere, so on a project that has never had it assigned
the read raises `AttributeError` and no state is mutated. In the (dead at
runtime) case where the attribute is present, the task gets that id, the
counter is incremented, and the task is appended to `project.tasks`; the
constructor omits `status`, whose declared column default is `todo`. -/
def create_task (s : State) (project_id : Int) (title description : String)
    (deadline : Option Int) : Except Err (Task × State) :=
  match getProject? s project_id with
  | none => .error (.entityDoesNotExist "Project" project_id)
  | some project =>
    match project.next_task_id with
    | none => .error (.attributeError "_next_task_id")
    | some n =>
      let task : Task := { id := n, title := title, description := description,
                           deadline := deadline }
      let project' : Project := { project with
        tasks := project.tasks ++ [task],
        next_task_id := some (n + 1) }
      .ok (task,
        { s with projects :=
            updateFirst (fun q => q.id == project_id) (fun _ => project') s.projects })

/-- Embedding of `InMemoryProjectRepository.update_task_status`: fetch the
project or raise, find the task or raise, mutate its `status`, return a copy. -/
def update_task_status (s : State) (project_id task_id : Int) (new_status : String) :
    Except Err (Task × State) :=
  match getProject? s project_id with
  | none => .error (.entityDoesNotExist "Project" project_id)
  | some project =>
    match findTask? project task_id with
    | none => .error (.entityDoesNotExist "Task" task_id)
    | some task =>
      let task' : Task := { task with status := new_status }
      let project' : Project := { project with
        tasks := updateFirst (fun t => t.id == task_id) (fun _ => task') project.tasks }
      .ok (task',
        { s with projects :=
            updateFirst (fun q => q.id == project_id) (fun _ => project') s.projects })

/-- Embedding of `InMemoryProjectRepository.update_task`: fetch the project or
raise, find the task or raise, mutate `title`, `description`, `status`,
`deadline` and `closed_at`, return a copy. -/
def update_task (s : State) (project_id task_id : Int)
    (new_title new_description new_status : String)
    (new_deadline new_closed_at : Option Int) : Except Err (Task × State) :=
  match getProject? s project_id with
  | none => .error (.entityDoesNotExist "Project" project_id)
  | some project =>
    match findTask? project task_id with
    | none => .error (.entityDoesNotExist "Task" task_id)
    | some task =>
      let task' : Task := { task with
        title := new_title,
        description := new_description,
        status := new_status,
        deadline := new_deadline,
        closed_at := new_closed_at }
      let project' : Project := { project with
        tasks := updateFirst (fun t => t.id == task_id) (fun _ => task') project.tasks }
      .ok (task',
        { s with projects :=
            updateFirst (fun q => q.id == project_id) (fun _ => project') s.projects })

/-- Embedding of `InMemoryProjectRepository.delete_task`: fetch the project or
raise, find the task or raise, `project.tasks.remove(task)` removes exactly
the found object, i.e. the first task with that id. -/
def delete_task (s : State) (project_id task_id : Int) : Except Err State :=
  match getProject? s project_id with
  | none => .error (.entityDoesNotExist "Project" project_id)
  | some project =>
    match findTask? project task_id with
    | none => .error (.entityDoesNotExist "Task" task_id)
    | some _ =>
      let project' : Project := { project with
        tasks := project.tasks.eraseP (fun t => t.id == task_id) }
      .ok { s with projects :=
              updateFirst (fun q => q.id == project_id) (fun _ => project') s.projects }

/-- Overdue test of `InMemoryProjectRepository.find_overdue_tasks`:
`task.deadline and task.deadline < now and task.status != "done"` (a present
datetime is always truthy). -/
def isOverdue (now : Int) (t : Task) : Bool :=
  match t.deadline with
  | some d => d < now && t.status != "done"
  | none => false

/-- Embedding of `InMemoryProjectRepository.find_overdue_tasks`
(`src/app/repositories/project_repository.py`): iterates every task of every
stored project, collecting deep copies of those with a set past deadline and
a status other than `done`. `now` is the call time (`datetime.now()`). -/
def find_overdue_tasks (s : State) (now : Int) : List Task :=
  s.projects.flatMap (fun p => p.tasks.filter (isOverdue now))

/-- Modelled from the spec: `ProjectService.autoclose_overdue_tasks` lives in
`src/app/services/project_service.py`, which is not among the given sources
(only its caller `run_autoclose` in `src/app/commands/autoclose_overdue.py`
is). Per the spec it calls `find_overdue_tasks` once, then for each task of
that snapshot updates the task's status to `done` and its `closed_at` to the
current time, and returns the number of tasks closed. -/
def autoclose_overdue_tasks (s : State) (now : Int) : Nat × State :=
  ((find_overdue_tasks s now).length,
   { s with projects := s.projects.map (fun p =>
       { p with tasks := p.tasks.map (fun t =>
           if isOverdue now t then { t with status := "done", closed_at := some now }
           else t) }) })

/-- Mutating operations of the in-memory repository, for reasoning about
arbitrary call sequences. -/
inductive Op where
  | createProject (name description : String)
  | updateProject (id : Int) (new_name new_description : String)
  | deleteProject (id : Int)
  | createTask (project_id : Int) (title description : String) (deadline : Option Int)
  | updateTaskStatus (project_id task_id : Int) (new_status : String)
  | updateTask (project_id task_id : Int) (new_title new_description new_status : String)
      (new_deadline new_closed_at : Option Int)
  | deleteTask (project_id task_id : Int)

/-- Applies one repository operation: the state after the call (a raising call
leaves the store untouched, since every failure in the source precedes every
mutation) together with the project id assigned when the operation was a
`create_project`. -/
def applyOp (s : State) : Op → State × Option Int
  | .createProject n d => let (p, s') := create_project s n d; (s', some p.id)
  | .updateProject id n d =>
    match update_project s id n d with
    | .ok (_, s') => (s', none)
    | .error _ => (s, none)
  | .deleteProject id =>
    match delete_project s id with
    | .ok s' => (s', none)
    | .error _ => (s, none)
  | .createTask pid t d dl =>
    match create_task s pid t d dl with
    | .ok (_, s') => (s', none)
    | .error _ => (s, none)
  | .updateTaskStatus pid tid st =>
    match update_task_status s pid tid st with
    | .ok (_, s') => (s', none)
    | .error _ => (s, none)
  | .updateTask pid tid t d st dl ca =>
    match update_task s pid tid t d st dl ca with
    | .ok (_, s') => (s', none)
    | .error _ => (s, none)
  | .deleteTask pid tid =>
    match delete_task s pid tid with
    | .ok s' => (s', none)
    | .error _ => (s, none)

/-- Runs a sequence of repository operations from a state, returning the final
state and the list of project ids assigned by the `create_project` calls, in
order. -/
def runOps (s : State) : List Op → State × List Int
  | [] => (s, [])
  | op :: ops =>
    let r := applyOp s op
    let rest := runOps r.1 ops
    (rest.1, match r.2 with | some i => i :: rest.2 | none => rest.2)

/-- Initial state of `InMemoryProjectRepository.__init__`: empty store,
project-id counter at 1. -/
def initState : State := {}

end App

namespace Db

/-- Row of the `projects` table (`src/app/models/project.py`): columns `id`,
`name`, `description`, `created_at` (server default `now()`, so set on every
committed row). -/
structure ProjectRow where
  id : Int
  name : String
  description : String
  created_at : Int
deriving DecidableEq, Repr

/-- Row of the `tasks` table (`src/app/models/task.py`): columns `id`,
`project_id`, `title`, `description`, `status` (default `todo`), `deadline`,
`created_at`, `closed_at`. -/
structure TaskRow where
  id : Int
  project_id : Int
  title : String
  description : String
  status : String
  deadline : Option Int
  created_at : Int
  closed_at : Option Int
deriving DecidableEq, Repr

/-- Relational state behind `SqlAlchemyProjectRepository`
(`src/app/repositories/sqlalchemy_repository.py`): the two tables plus the
primary-key counters. Each repository method commits immediately, so a state
is always a committed database. -/
structure DbState where
  projects : List ProjectRow := []
  tasks : List TaskRow := []
  next_project_id : Int := 1
  next_task_id : Int := 1
deriving DecidableEq, Repr

/-- Primary-key lookup of `SqlAlchemyProjectRepository._get_project_or_raise`
(`session.get(Project, id)`). -/
def getProject? (s : DbState) (id : Int) : Option ProjectRow :=
  s.projects.find? (fun p => p.id == id)

/-- Lookup of `SqlAlchemyProjectRepository._find_task_in_project_or_raise`
(`query(Task).filter_by(project_id=project.id, id=task_id).first()`). -/
def findTask? (s : DbState) (project_id task_id : Int) : Option TaskRow :=
  s.tasks.find? (fun t => t.project_id == project_id && t.id == task_id)

/-- Embedding of `SqlAlchemyProjectRepository.create_project`: inserts a row
(primary key from the counter, `created_at` from the server clock `now`),
commits, refreshes and returns the row. -/
def create_project (s : DbState) (name description : String) (now : Int) :
    ProjectRow × DbState :=
  let row : ProjectRow := { id := s.next_project_id, name := name,
                            description := description, created_at := now }
  (row, { s with
          projects := s.projects ++ [row],
          next_project_id := s.next_project_id + 1 })

/-- Embedding of `SqlAlchemyProjectRepository.list_projects`:
`query(Project).order_by(Project.created_at).all()`, a sort ascending by
`created_at`. -/
def list_projects (s : DbState) : List ProjectRow :=
  s.projects.mergeSort (fun p q => p.created_at ≤ q.created_at)

/-- Embedding of `SqlAlchemyProjectRepository.find_project_by_id`
(eager-loading changes no result). -/
def find_project_by_id (s : DbState) (id : Int) : Except Err ProjectRow :=
  match getProject? s id with
  | some p => .ok p
  | none => .error (.entityDoesNotExist "Project" id)

/-- Embedding of `SqlAlchemyProjectRepository.find_project_by_name`:
`query(Project).filter(Project.name == name).first()`. -/
def find_project_by_name (s : DbState) (name : String) : Option ProjectRow :=
  s.projects.find? (fun p => p.name == name)

/-- Embedding of `SqlAlchemyProjectRepository.update_project`: fetch or raise,
set `name` and `description`, commit, return the row. -/
def update_project (s : DbState) (id : Int) (new_name new_description : String) :
    Except Err (ProjectRow × DbState) :=
  match getProject? s id with
  | none => .error (.entityDoesNotExist "Project" id)
  | some p =>
    let p' : ProjectRow := { p with name := new_name, description := new_description }
    .ok (p', { s with projects := updateFirst (fun q => q.id == id) (fun _ => p') s.projects })

/-- Embedding of `SqlAlchemyProjectRepository.delete_project`: fetch or raise,
delete the row; the `all, delete-orphan` cascade of the relationship deletes
every task row of the project. -/
def delete_project (s : DbState) (id : Int) : Except Err DbState :=
  match getProject? s id with
  | none => .error (.entityDoesNotExist "Project" id)
  | some _ =>
    .ok { s with
          projects := s.projects.filter (fun p => p.id != id),
          tasks := s.tasks.filter (fun t => t.project_id != id) }

/-- Embedding of `SqlAlchemyProjectRepository.create_task`: existence check on
the project, then insert of a task row (primary key from the counter, the
`status` column default `todo` and the `created_at` server default applied at
the commit), refresh and return. -/
def create_task (s : DbState) (project_id : Int) (title description : String)
    (deadline : Option Int) (now : Int) : Except Err (TaskRow × DbState) :=
  match getProject? s project_id with
  | none => .error (.entityDoesNotExist "Project" project_id)
  | some _ =>
    let row : TaskRow := { id := s.next_task_id, project_id := project_id,
                           title := title, description := description,
                           status := "todo", deadline := deadline,
                           created_at := now, closed_at := none }
    .ok (row, { s with tasks := s.tasks ++ [row], next_task_id := s.next_task_id + 1 })

/-- Embedding of `SqlAlchemyProjectRepository.update_task_status`: fetch the
project or raise, find the task in it or raise, set `status`, commit. -/
def update_task_status (s : DbState) (project_id task_id : Int) (new_status : String) :
    Except Err (TaskRow × DbState) :=
  match getProject? s project_id with
  | none => .error (.entityDoesNotExist "Project" project_id)
  | some _ =>
    match findTask? s project_id task_id with
    | none => .error (.entityDoesNotExist "Task" task_id)
    | some t =>
      let t' : TaskRow := { t with status := new_status }
      let tasks' := updateFirst
        (fun u => u.project_id == project_id && u.id == task_id) (fun _ => t') s.tasks
      .ok (t', { s with tasks := tasks' })

/-- Embedding of `SqlAlchemyProjectRepository.update_task`: fetch the project
or raise, find the task or raise, set `title`, `description`, `status` and
`deadline`, commit. Unlike the in-memory implementation's `update_task`, the
method has no `new_closed_at` parameter and leaves `closed_at` untouched. -/
def update_task (s : DbState) (project_id task_id : Int)
    (new_title new_description new_status : String) (new_deadline : Option Int) :
    Except Err (TaskRow × DbState) :=
  match getProject? s project_id with
  | none => .error (.entityDoesNotExist "Project" project_id)
  | some _ =>
    match findTask? s project_id task_id with
    | none => .error (.entityDoesNotExist "Task" task_id)
    | some t =>
      let t' : TaskRow := { t with
        title := new_title,
        description := new_description,
        status := new_status,
        deadline := new_deadline }
      let tasks' := updateFirst
        (fun u => u.project_id == project_id && u.id == task_id) (fun _ => t') s.tasks
      .ok (t', { s with tasks := tasks' })

/-- Embedding of `SqlAlchemyProjectRepository.delete_task`: fetch the project
or raise, find the task or raise, delete the row, commit. -/
def delete_task (s : DbState) (project_id task_id : Int) : Except Err DbState :=
  match getProject? s project_id with
  | none => .error (.entityDoesNotExist "Project" project_id)
  | some _ =>
    match findTask? s project_id task_id with
    | none => .error (.entityDoesNotExist "Task" task_id)
    | some _ =>
      .ok { s with tasks :=
        s.tasks.eraseP (fun u => u.project_id == project_id && u.id == task_id) }

end Db

/-- Operations declared by the abstract interface `IProjectRepository`
(`src/app/repositories/project_repository.py`), in source order, each with the
number of parameters after `self`. -/
def interfaceOps : List (String × Nat) :=
  [("create_project", 2), ("list_projects", 0), ("find_project_by_id", 1),
   ("find_project_by_name", 1), ("update_project", 3), ("delete_project", 1),
   ("create_task", 4), ("update_task_status", 3), ("update_task", 7),
   ("delete_task", 2), ("find_overdue_tasks", 0)]

/-- Methods defined by `SqlAlchemyProjectRepository`
(`src/app/repositories/sqlalchemy_repository.py`), in source order, each with
the number of parameters after `self` (private helpers omitted). The class
defines no `find_overdue_tasks`, and its `update_task` takes six parameters
(no `new_closed_at`). -/
def sqlAlchemyOps : List (String × Nat) :=
  [("create_project", 2), ("list_projects", 0), ("find_project_by_id", 1),
   ("find_project_by_name", 1), ("update_project", 3), ("delete_project", 1),
   ("create_task", 4), ("update_task_status", 3), ("update_task", 6),
   ("delete_task", 2)]

/-- Discriminates a successful result, for stating when an operation raises. -/
def isOk {α : Type} : Except Err α → Bool
  | .ok _ => true
  | .error _ => false

/-! Concrete example data used by the per-claim witness and counterexample
theorems: small repository states built from the models above. -/

/-- Overdue example task: deadline at time 0, status `doing`. -/
def exC1Task : App.Task :=
  { id := 1, title := "Draft plan", description := "", status := "doing", deadline := some 0 }

/-- Project holding `exC1Task`. -/
def exC1Project : App.Project :=
  { id := 1, name := "Launch", description := "", tasks := [exC1Task] }

/-- App in-memory state with the single overdue task. -/
def exC1State : App.State := { projects := [exC1Project] }

/-- Overdue example task in project 1. -/
def exC2TaskA : App.Task :=
  { id := 1, title := "T1", description := "", status := "doing", deadline := some 0 }

/-- Overdue example task in project 2. -/
def exC2TaskB : App.Task :=
  { id := 2, title := "T2", description := "", status := "todo", deadline := some 0 }

/-- First project of the C2 example state. -/
def exC2P1 : App.Project := { id := 1, name := "P1", description := "", tasks := [exC2TaskA] }

/-- Second project of the C2 example state. -/
def exC2P2 : App.Project := { id := 2, name := "P2", description := "", tasks := [exC2TaskB] }

/-- App in-memory state with two projects, each holding one overdue task. -/
def exC2State : App.State := { projects := [exC2P1, exC2P2] }

/-- The C2 example state after deleting project 1. -/
def exC2StateAfter : App.State := { projects := [exC2P2] }

/-- App in-memory state after one successful `create_project` call. -/
def exC3State : App.State := (App.create_project App.initState "A" "desc").2

/-- Stored todolist project that carries the dynamic `name` attribute `A`
(as left behind by an `update_project` call), so that a project named `A`
genuinely exists in the store. -/
def exC4Project : TL.Project := { id := 1, title := "A", description := "", name := some "A" }

/-- Todolist state containing `exC4Project`. -/
def exC4State : TL.State := { projects := [exC4Project] }

/-- Stored todolist project for the C6 limit example. -/
def exC6Project : TL.Project := { id := 1, title := "A", description := "" }

/-- Todolist state containing one project, for the limit-reached case. -/
def exC6State : TL.State := { projects := [exC6Project] }

/-- Todolist state containing an empty project with id 1. -/
def exC7State : TL.State := { projects := [{ id := 1, title := "P", description := "" }] }

/-- App in-memory state after one successful `create_project` call. -/
def exC8AppState : App.State := (App.create_project App.initState "P" "").2

/-- Database state after one committed `create_project` call at time 0. -/
def exC8DbState : Db.DbState := (Db.create_project {} "P" "" 0).2

/-- App in-memory state after one successful `create_project` call. -/
def exC9AppState : App.State := (App.create_project App.initState "P" "").2

/-- Todolist state containing an empty project with id 1. -/
def exC9TLState : TL.State := { projects := [{ id := 1, title := "P", description := "" }] }

/-! Theorems. Shared helper lemmas come first, then one theorem per claim
(with a witness where the statement carries hypotheses). -/

/-- Unfolding of the overdue filter: a task is overdue at `now` exactly when
its deadline is set, earlier than `now`, and its status is not `done`. -/
theorem isOverdue_iff (now : Int) (t : App.Task) :
    App.isOverdue now t = true ↔
      (∃ d, t.deadline = some d ∧ d < now) ∧ t.status ≠ "done" := by
  rcases t with ⟨id, pid, title, desc, st, dl, ca, cl⟩
  cases dl <;> simp [App.isOverdue, and_assoc]

/-- Membership in `find_overdue_tasks`: the returned tasks are exactly the
stored tasks passing the overdue filter. -/
theorem mem_find_overdue (s : App.State) (now : Int) (t : App.Task) :
    t ∈ App.find_overdue_tasks s now ↔
      ∃ p, p ∈ s.projects ∧ t ∈ p.tasks ∧ App.isOverdue now t = true := by
  simp only [App.find_overdue_tasks, List.mem_flatMap, List.mem_filter]

/-- A task run through the auto-close update is never overdue afterwards:
either it was overdue and is now `done`, or it was untouched and was not
overdue to begin with. -/
theorem isOverdue_after_close (now : Int) (t : App.Task) :
    App.isOverdue now
      (if App.isOverdue now t then { t with status := "done", closed_at := some now }
       else t) = false := by
  cases hov : App.isOverdue now t with
  | true =>
    rcases t with ⟨id, pid, title, desc, st, dl, ca, cl⟩
    cases dl <;> simp [App.isOverdue]
  | false => simp [hov]

/-- C3: the claim says `list_projects` returns all stored projects ordered by
creation time ascending. In fact the sort key of
`InMemoryProjectRepository.list_projects` reads `p.creation_date`, an
attribute no Project has (the model's field is `created_at`), so on any store
holding at least one project — here the state after a single `create_project`
— the call raises `AttributeError` instead of returning the sorted list. -/
theorem c3_list_projects_raises_attribute_error :
    App.list_projects exC3State = .error (.attributeError "creation_date") := rfl

/-- C4: the claim says `create_project` with the name of an existing project
raises `DuplicateProjectNameError`. In the todolist composition a stored
project named `A` exists (conjunct 1), yet `create_project` with name `A`
raises `AttributeError` out of the `list_projects` limit check — reached
before the duplicate check — instead of `DuplicateProjectNameError`
(conjunct 2). -/
theorem c4_duplicate_create_raises_attribute_error :
    TL.find_project_by_name exC4State "A" = .ok (some exC4Project)
    ∧ TL.service_create_project 10 exC4State "A" "x" =
        (.error (.attributeError "creation_date"), exC4State, ["list_projects"]) :=
  ⟨rfl, rfl⟩

/-- C6: the claim says the (max)-th creation succeeds and that creation
beyond the maximum fails with `ProjectLimitExceeded`. With `max_projects = 1`
and an empty store, the first creation — which should succeed — reaches the
repository and raises `TypeError` from `Project(id=..., name=..., ...)`
(the dataclass has no `name` field) (conjunct 1); with one stored project it
raises `AttributeError` out of `list_projects` before the limit check can
fail (conjunct 2). -/
theorem c6_limit_paths_raise :
    TL.service_create_project 1 {} "A" "" =
      (.error (.typeError "name"), ({} : TL.State),
       ["list_projects", "find_project_by_name", "create_project"])
    ∧ TL.service_create_project 1 exC6State "B" "" =
        (.error (.attributeError "creation_date"), exC6State, ["list_projects"]) :=
  ⟨rfl, rfl⟩

/-- C7: the claim says absent or empty deadline text succeeds and yields a
task with no deadline. Absent (None) does parse to no deadline (conjunct 1),
but the empty string is handed to `strptime` and raises `ValidationError`
(conjunct 2); and even with an absent deadline and an existing, empty project
and valid lengths, creation raises `TypeError` in the repository because the
`Task` dataclass requires `status` and `create_task` does not pass it
(conjunct 3). Malformed text does raise `ValidationError` (conjunct 4) and a
well-formed date does parse (conjunct 5). -/
theorem c7_add_task_deadline_behaviour :
    TL.parse_deadline none = .ok none
    ∧ TL.parse_deadline (some "") =
        .error (.validationError "Invalid deadline format. Use YYYY-MM-DD")
    ∧ TL.service_add_task 5 exC7State 1 "T" "" none = (.error (.typeError "status"), exC7State)
    ∧ TL.parse_deadline (some "2020-13-01") =
        .error (.validationError "Invalid deadline format. Use YYYY-MM-DD")
    ∧ TL.parse_deadline (some "2020-01-01") = .ok (some ⟨2020, 1, 1⟩) :=
  ⟨rfl, by decide, rfl, by decide, by decide⟩

/-- C8 counterexample: the claim says the SQLAlchemy repository provides
every operation of the interface, including `find_overdue_tasks` and an
`update_task` with the same parameters, with the same success results. The
declared method tables refute it: `find_overdue_tasks` is required by the
interface but absent from the class, `update_task` drops a parameter, and
`create_task` on the same one-project store errors in the in-memory
implementation while succeeding in the persistent one. -/
theorem c8_interface_parity_fails :
    ¬ (∀ op ∈ interfaceOps, op ∈ sqlAlchemyOps)
    ∧ ("find_overdue_tasks", 0) ∈ interfaceOps
    ∧ (sqlAlchemyOps.all (fun x => x.1 != "find_overdue_tasks")) = true
    ∧ ("update_task", 7) ∈ interfaceOps
    ∧ ("update_task", 6) ∈ sqlAlchemyOps
    ∧ App.create_task exC8AppState 1 "T" "" none = .error (.attributeError "_next_task_id")
    ∧ isOk (Db.create_task exC8DbState 1 "T" "" none 0) = true := by
  refine ⟨?_, by decide, by decide, by decide, by decide, rfl, rfl⟩
  intro h
  exact absurd (h ("find_overdue_tasks", 0) (by decide)) (by decide)

/-- C9: the claim says `create_task` on a state with an existing project
assigns a fresh positive id and appends the task. In fact the app in-memory
implementation reads the uninitialized `project._next_task_id` and raises
`AttributeError` (conjunct 1), and the todolist implementation's
`Task(...)` constructor call omits the required `status` field and raises
`TypeError` (conjunct 2); in both, no task is ever created. -/
theorem c9_create_task_raises :
    App.create_task exC9AppState 1 "T" "" none = .error (.attributeError "_next_task_id")
    ∧ TL.create_task exC9TLState 1 "T" "" none = .error (.typeError "status") :=
  ⟨rfl, rfl⟩

/-- C5: for every configured maximum, state, name longer than 30 characters
and any description, the todolist service's `create_project` fails with
`ValidationError`, leaves the state unchanged, and invokes no repository
operation (the empty trace). -/
theorem c5_long_name_validation (max_projects : Int) (s : TL.State)
    (name description : String) (h : name.length > 30) :
    TL.service_create_project max_projects s name description =
      (.error (.validationError "Project name must be 30 characters or less."), s, []) := by
  simp [TL.service_create_project, h]

/-- C5 witness: a 31-character name triggers the validation failure with no
repository call, at the empty state and limit 0. -/
theorem c5_long_name_validation_witness :
    ("AAAAAAAAAAAAAAAAAAAAAAAAAAAAAAA" : String).length > 30
    ∧ TL.service_create_project 0 {} "AAAAAAAAAAAAAAAAAAAAAAAAAAAAAAA" "" =
        (.error (.validationError "Project name must be 30 characters or less."),
         ({} : TL.State), []) :=
  ⟨by decide, c5_long_name_validation 0 {} "AAAAAAAAAAAAAAAAAAAAAAAAAAAAAAA" "" (by decide)⟩

/-- C1: one call of the auto-close sweep closes every task that was overdue
(deadline set and in the past, status not `done`) — in the resulting state
the owning project holds the task with status `done` and `closed_at` set to
the current time (conjunct 1) — returns the number of tasks found overdue,
i.e. closed (conjunct 2), and an immediately repeated call at the same time
returns count 0, since the closed tasks no longer pass the
`status != done` filter (conjunct 3). -/
theorem c1_autoclose_closes_overdue (s : App.State) (now : Int) :
    (∀ p, p ∈ s.projects → ∀ t, t ∈ p.tasks → App.isOverdue now t = true →
      ∃ p', p' ∈ (App.autoclose_overdue_tasks s now).2.projects ∧ p'.id = p.id ∧
        ({ t with status := "done", closed_at := some now } : App.Task) ∈ p'.tasks)
    ∧ (App.autoclose_overdue_tasks s now).1 = (App.find_overdue_tasks s now).length
    ∧ (App.autoclose_overdue_tasks (App.autoclose_overdue_tasks s now).2 now).1 = 0 := by
  refine ⟨?_, rfl, ?_⟩
  · intro p hp t ht hov
    refine ⟨_, List.mem_map_of_mem _ hp, rfl, ?_⟩
    have h : ({ t with status := "done", closed_at := some now } : App.Task)
        = (if App.isOverdue now t then
            ({ t with status := "done", closed_at := some now } : App.Task) else t) := by
      simp [hov]
    rw [h]
    exact List.mem_map_of_mem _ ht
  · have hnil : App.find_overdue_tasks (App.autoclose_overdue_tasks s now).2 now = [] := by
      apply List.eq_nil_iff_forall_not_mem.2
      intro t ht
      rw [mem_find_overdue] at ht
      obtain ⟨p', hp', ht', hov'⟩ := ht
      simp only [App.autoclose_overdue_tasks, List.mem_map] at hp'
      obtain ⟨p, hp, rfl⟩ := hp'
      simp only [List.mem_map] at ht'
      obtain ⟨t0, ht0, rfl⟩ := ht'
      rw [isOverdue_after_close] at hov'
      exact absurd hov' (by decide)
    have hfst : (App.autoclose_overdue_tasks (App.autoclose_overdue_tasks s now).2 now).1
        = (App.find_overdue_tasks (App.autoclose_overdue_tasks s now).2 now).length := rfl
    rw [hfst, hnil]
    rfl

/-- C1 witness: on the one-project state whose single task has deadline 0 and
status `doing`, the sweep at time 1 closes it (status `done`, `closed_at`
set to 1), returns count 1, and a repeated sweep returns count 0. -/
theorem c1_autoclose_closes_overdue_witness :
    (∃ p', p' ∈ (App.autoclose_overdue_tasks exC1State 1).2.projects ∧ p'.id = 1 ∧
      ({ exC1Task with status := "done", closed_at := some 1 } : App.Task) ∈ p'.tasks)
    ∧ (App.autoclose_overdue_tasks exC1State 1).1 = 1
    ∧ (App.autoclose_overdue_tasks (App.autoclose_overdue_tasks exC1State 1).2 1).1 = 0 := by
  obtain ⟨h1, h2, h3⟩ := c1_autoclose_closes_overdue exC1State 1
  refine ⟨?_, ?_, h3⟩
  · exact h1 exC1Project (by decide) exC1Task (by decide) (by decide)
  · rw [h2]; decide

/-- C2: `find_overdue_tasks` returns exactly the stored tasks, across all
stored projects, whose deadline is set and earlier than the call time and
whose status is not `done` (conjunct 1); and after a successful
`delete_project`, no project with the deleted id remains, so every task it
returns comes from a surviving project (conjunct 2). -/
theorem c2_find_overdue_characterization (s : App.State) (now : Int) :
    (∀ t : App.Task, t ∈ App.find_overdue_tasks s now ↔
      ∃ p, p ∈ s.projects ∧ t ∈ p.tasks ∧
        (∃ d, t.deadline = some d ∧ d < now) ∧ t.status ≠ "done")
    ∧ ∀ id s', App.delete_project s id = .ok s' →
        (∀ p', p' ∈ s'.projects → p'.id ≠ id) ∧
        ∀ t, t ∈ App.find_overdue_tasks s' now →
          ∃ p', p' ∈ s'.projects ∧ p'.id ≠ id ∧ t ∈ p'.tasks := by
  constructor
  · intro t
    rw [mem_find_overdue]
    constructor
    · rintro ⟨p, hp, ht, hov⟩
      exact ⟨p, hp, ht, (isOverdue_iff now t).1 hov⟩
    · rintro ⟨p, hp, ht, hcond⟩
      exact ⟨p, hp, ht, (isOverdue_iff now t).2 hcond⟩
  · intro id s' hdel
    have hs' : s'.projects = s.projects.filter (fun p => p.id != id) := by
      unfold App.delete_project at hdel
      cases hg : App.getProject? s id with
      | none => rw [hg] at hdel; cases hdel
      | some p =>
        rw [hg] at hdel
        injection hdel with h
        rw [← h]
    have hne : ∀ p', p' ∈ s'.projects → p'.id ≠ id := by
      intro p' hp'
      rw [hs'] at hp'
      have := (List.mem_filter.1 hp').2
      simpa using this
    refine ⟨hne, ?_⟩
    intro t ht
    rw [mem_find_overdue] at ht
    obtain ⟨p', hp', ht', _⟩ := ht
    exact ⟨p', hp', hne p' hp', ht'⟩

/-- C2 witness: on a two-project state with one overdue task each, the
characterization certifies the returned task, and after deleting project 1
the remaining overdue task comes from the surviving project 2. -/
theorem c2_find_overdue_characterization_witness :
    exC2TaskA ∈ App.find_overdue_tasks exC2State 1
    ∧ ∃ p', p' ∈ exC2StateAfter.projects ∧ p'.id ≠ 1 ∧ exC2TaskB ∈ p'.tasks := by
  obtain ⟨hchar, hdel⟩ := c2_find_overdue_characterization exC2State 1
  constructor
  · exact (hchar exC2TaskA).2
      ⟨exC2P1, by decide, by decide, ⟨0, by decide, by decide⟩, by decide⟩
  · have h := hdel 1 exC2StateAfter (by decide)
    exact h.2 exC2TaskB (by decide)

/-- Effect of one repository operation on the project-id counter: a
`create_project` returns exactly the current counter value and bumps it by
one; every other operation (including a failing one) assigns no id and leaves
the counter unchanged. -/
theorem applyOp_assigned (s : App.State) (op : App.Op) :
    ((App.applyOp s op).2 = some s.next_project_id ∧
      (App.applyOp s op).1.next_project_id = s.next_project_id + 1) ∨
    ((App.applyOp s op).2 = none ∧
      (App.applyOp s op).1.next_project_id = s.next_project_id) := by
  cases op with
  | createProject n d => exact Or.inl ⟨rfl, rfl⟩
  | updateProject id n d =>
    refine Or.inr ?_
    simp only [App.applyOp]
    cases hg : App.getProject? s id <;> simp [App.update_project, hg]
  | deleteProject id =>
    refine Or.inr ?_
    simp only [App.applyOp]
    cases hg : App.getProject? s id <;> simp [App.delete_project, hg]
  | createTask pid t d dl =>
    refine Or.inr ?_
    simp only [App.applyOp]
    cases hg : App.getProject? s pid with
    | none => simp [App.create_task, hg]
    | some p => cases hn : p.next_task_id <;> simp [App.create_task, hg, hn]
  | updateTaskStatus pid tid st =>
    refine Or.inr ?_
    simp only [App.applyOp]
    cases hg : App.getProject? s pid with
    | none => simp [App.update_task_status, hg]
    | some p => cases hf : App.findTask? p tid <;> simp [App.update_task_status, hg, hf]
  | updateTask pid tid t d st dl ca =>
    refine Or.inr ?_
    simp only [App.applyOp]
    cases hg : App.getProject? s pid with
    | none => simp [App.update_task, hg]
    | some p => cases hf : App.findTask? p tid <;> simp [App.update_task, hg, hf]
  | deleteTask pid tid =>
    refine Or.inr ?_
    simp only [App.applyOp]
    cases hg : App.getProject? s pid with
    | none => simp [App.delete_task, hg]
    | some p => cases hf : App.findTask? p tid <;> simp [App.delete_task, hg, hf]

/-- The ids assigned along any operation sequence are bounded below by the
starting counter and strictly increasing in order of assignment. -/
theorem runOps_ids_bound (ops : List App.Op) : ∀ s : App.State,
    (∀ i ∈ (App.runOps s ops).2, s.next_project_id ≤ i) ∧
    List.Pairwise (· < ·) (App.runOps s ops).2 := by
  induction ops with
  | nil => intro s; simp [App.runOps]
  | cons op ops ih =>
    intro s
    obtain ⟨ih1, ih2⟩ := ih (App.applyOp s op).1
    rcases applyOp_assigned s op with ⟨ha, hn⟩ | ⟨ha, hn⟩
    · have hids : (App.runOps s (op :: ops)).2
          = s.next_project_id :: (App.runOps (App.applyOp s op).1 ops).2 := by
        simp [App.runOps, ha]
      rw [hn] at ih1
      rw [hids]
      constructor
      · intro i hi
        rcases List.mem_cons.1 hi with h | h
        · omega
        · have := ih1 i h; omega
      · refine List.pairwise_cons.2 ⟨?_, ih2⟩
        intro i hi
        have := ih1 i hi
        omega
    · have hids : (App.runOps s (op :: ops)).2 = (App.runOps (App.applyOp s op).1 ops).2 := by
        simp [App.runOps, ha]
      rw [hn] at ih1
      rw [hids]
      exact ⟨ih1, ih2⟩

/-- C10: along every sequence of repository operations started on a fresh
in-memory repository, the project ids returned by the `create_project` calls
are strictly increasing in order of assignment — each exceeds all earlier
ones even across deletions — and hence pairwise distinct, never reused. -/
theorem c10_project_ids_strictly_increasing (ops : List App.Op) :
    List.Pairwise (· < ·) (App.runOps App.initState ops).2
    ∧ List.Pairwise (· ≠ ·) (App.runOps App.initState ops).2 := by
  have h := (runOps_ids_bound ops App.initState).2
  exact ⟨h, h.imp (fun hlt => ne_of_lt hlt)⟩

/-- C8 (amended): the SQLAlchemy repository provides the interface operations
except `find_overdue_tasks` — the method tables agree up to the interface's
final `find_overdue_tasks` entry, with only `update_task` at a different
arity (6 instead of 7, no `closed_at`) — and each fallible operation it does
provide fails with `EntityDoesNotExist` exactly when the referenced project
or task is absent. -/
theorem c8_sqlalchemy_contract :
    (interfaceOps.map Prod.fst).dropLast = sqlAlchemyOps.map Prod.fst
    ∧ interfaceOps.getLast? = some ("find_overdue_tasks", 0)
    ∧ (∀ x ∈ sqlAlchemyOps, x.1 = "update_task" ∨ x ∈ interfaceOps)
    ∧ ("update_task", 6) ∈ sqlAlchemyOps
    ∧ ("update_task", 7) ∈ interfaceOps
    ∧ (∀ s id, isOk (Db.find_project_by_id s id) = (Db.getProject? s id).isSome
        ∧ (Db.getProject? s id = none →
            Db.find_project_by_id s id = .error (.entityDoesNotExist "Project" id)))
    ∧ (∀ s id n d, isOk (Db.update_project s id n d) = (Db.getProject? s id).isSome
        ∧ (Db.getProject? s id = none →
            Db.update_project s id n d = .error (.entityDoesNotExist "Project" id)))
    ∧ (∀ s id, isOk (Db.delete_project s id) = (Db.getProject? s id).isSome
        ∧ (Db.getProject? s id = none →
            Db.delete_project s id = .error (.entityDoesNotExist "Project" id)))
    ∧ (∀ s pid t d dl now, isOk (Db.create_task s pid t d dl now) = (Db.getProject? s pid).isSome
        ∧ (Db.getProject? s pid = none →
            Db.create_task s pid t d dl now = .error (.entityDoesNotExist "Project" pid)))
    ∧ (∀ s pid tid st, isOk (Db.update_task_status s pid tid st)
          = ((Db.getProject? s pid).isSome && (Db.findTask? s pid tid).isSome)
        ∧ (Db.getProject? s pid = none →
            Db.update_task_status s pid tid st = .error (.entityDoesNotExist "Project" pid))
        ∧ ((Db.getProject? s pid).isSome = true → Db.findTask? s pid tid = none →
            Db.update_task_status s pid tid st = .error (.entityDoesNotExist "Task" tid)))
    ∧ (∀ s pid tid t d st dl, isOk (Db.update_task s pid tid t d st dl)
          = ((Db.getProject? s pid).isSome && (Db.findTask? s pid tid).isSome)
        ∧ (Db.getProject? s pid = none →
            Db.update_task s pid tid t d st dl = .error (.entityDoesNotExist "Project" pid))
        ∧ ((Db.getProject? s pid).isSome = true → Db.findTask? s pid tid = none →
            Db.update_task s pid tid t d st dl = .error (.entityDoesNotExist "Task" tid)))
    ∧ (∀ s pid tid, isOk (Db.delete_task s pid tid)
          = ((Db.getProject? s pid).isSome && (Db.findTask? s pid tid).isSome)
        ∧ (Db.getProject? s pid = none →
            Db.delete_task s pid tid = .error (.entityDoesNotExist "Project" pid))
        ∧ ((Db.getProject? s pid).isSome = true → Db.findTask? s pid tid = none →
            Db.delete_task s pid tid = .error (.entityDoesNotExist "Task" tid))) := by
  refine ⟨by decide, by decide, by decide, by decide, by decide, ?_, ?_, ?_, ?_, ?_, ?_, ?_⟩
  · intro s id
    cases hg : Db.getProject? s id <;> simp [Db.find_project_by_id, isOk, hg]
  · intro s id n d
    cases hg : Db.getProject? s id <;> simp [Db.update_project, isOk, hg]
  · intro s id
    cases hg : Db.getProject? s id <;> simp [Db.delete_project, isOk, hg]
  · intro s pid t d dl now
    cases hg : Db.getProject? s pid <;> simp [Db.create_task, isOk, hg]
  · intro s pid tid st
    cases hg : Db.getProject? s pid <;> cases hf : Db.findTask? s pid tid <;>
      simp [Db.update_task_status, isOk, hg, hf]
  · intro s pid tid t d st dl
    cases hg : Db.getProject? s pid <;> cases hf : Db.findTask? s pid tid <;>
      simp [Db.update_task, isOk, hg, hf]
  · intro s pid tid
    cases hg : Db.getProject? s pid <;> cases hf : Db.findTask? s pid tid <;>
      simp [Db.delete_task, isOk, hg, hf]

/-- C8 amended-contract witness: on the one-project database, `update_task`
of a missing task 5 in the existing project 1 is not ok and fails with
`EntityDoesNotExist` for the task,  matching the absence condition. -/
theorem c8_sqlalchemy_contract_witness :
    isOk (Db.update_task exC8DbState 1 5 "T" "" "todo" none) = false
    ∧ Db.update_task exC8DbState 1 5 "T" "" "todo" none =
        .error (.entityDoesNotExist "Task" 5) := by
  obtain ⟨-, -, -, -, -, -, -, -, -, -, hupd, -⟩ := c8_sqlalchemy_contract
  obtain ⟨h1, h2, h3⟩ := hupd exC8DbState 1 5 "T" "" "todo" none
  refine ⟨?_, h3 (by decide) (by decide)⟩
  rw [h1]
  decide

end Todo
